import Mathlib

/-
Verification of the choptimize result decoder, score assessment, renderer
fallback and CLI prompt handling, against a shallow embedding of the Python
sources (src/choptimize).  Python dict/JSON values are embedded as `PyVal`,
fallible Python code as `Except String`-returning functions whose error
strings mirror what CPython produces as str(e) for the exceptions the code catches.
Numbers are embedded as rationals: every comparison and coercion the code
performs is order-theoretic and exact on the values the claims mention.
-/

namespace Choptimize

/-- A JSON-compatible Python value: the possible shapes of the decoded
response mapping handed to `AnalysisResult.from_dict` (types.py). -/
inductive PyVal : Type where
  | none : PyVal
  | bool (b : Bool) : PyVal
  | num (q : ℚ) : PyVal
  | str (s : String) : PyVal
  | list (xs : List PyVal) : PyVal
  | dict (entries : List (String × PyVal)) : PyVal

/-- Association-list lookup, first binding wins: Python `d[k]` / `d.get(k)`
on a dict with (necessarily unique) string keys. -/
def dictLookup (d : List (String × PyVal)) (k : String) : Option PyVal :=
  match d with
  | [] => Option.none
  | (k2, v) :: rest => if k2 = k then some v else dictLookup rest k

/-- Python `d.get(k, dflt)`. -/
def dictGet (d : List (String × PyVal)) (k : String) (dflt : PyVal) : PyVal :=
  (dictLookup d k).getD dflt

/-- CPython renders str(KeyError(k)) as the repr of the key, in quotes. -/
def keyErrStr (k : String) : String := "\x27" ++ k ++ "\x27"

/-- Python `d[k]` on a dict: the value, or KeyError. -/
def dictItem (d : List (String × PyVal)) (k : String) : Except String PyVal :=
  match dictLookup d k with
  | some v => Except.ok v
  | Option.none => Except.error (keyErrStr k)

/-- Python type name, as it appears in CPython error messages. -/
def pyTypeName : PyVal → String
  | PyVal.none => "NoneType"
  | PyVal.bool _ => "bool"
  | PyVal.num _ => "float"
  | PyVal.str _ => "str"
  | PyVal.list _ => "list"
  | PyVal.dict _ => "dict"

/-- Python `obj[k]` for a string key `k` on an arbitrary value: dict lookup,
or TypeError for every non-dict shape. -/
def pySubscript (v : PyVal) (k : String) : Except String PyVal :=
  match v with
  | PyVal.dict d => dictItem d k
  | PyVal.list _ => Except.error "list indices must be integers or slices, not str"
  | PyVal.str _ => Except.error "string indices must be integers, not \x27str\x27"
  | w => Except.error ("\x27" ++ pyTypeName w ++ "\x27 object is not subscriptable")

/-- Numeric value of a digit string (digits only, most significant first). -/
def natOfDigits (cs : List Char) : ℕ :=
  cs.foldl (fun a c => a * 10 + (c.toNat - 48)) 0

/-- Python `str.strip()` with no argument: remove leading and trailing
whitespace. -/
def pyStrip (s : String) : String :=
  String.mk (((s.toList.dropWhile Char.isWhitespace).reverse.dropWhile
    Char.isWhitespace).reverse)

/-- Unsigned decimal float literal: `144`, `8.25`, `3.`, `.5`.
(Exponent and inf/nan forms accepted by CPython are omitted; no claim
depends on them.) -/
def parseUnsignedFloat (cs : List Char) : Option ℚ :=
  match cs.splitOn '.' with
  | [i] =>
    if !i.isEmpty && i.all Char.isDigit then some (natOfDigits i) else Option.none
  | [i, f] =>
    if !(i ++ f).isEmpty && i.all Char.isDigit && f.all Char.isDigit then
      some ((natOfDigits i : ℚ) + (natOfDigits f : ℚ) / ((10 : ℚ) ^ f.length))
    else Option.none
  | _ => Option.none

/-- Decimal float literal with optional sign and surrounding whitespace,
the strings accepted by Python `float(str)`. -/
def parseFloatStr (s : String) : Option ℚ :=
  match (pyStrip s).toList with
  | '-' :: rest => (parseUnsignedFloat rest).map (fun q => -q)
  | '+' :: rest => parseUnsignedFloat rest
  | cs => parseUnsignedFloat cs

/-- Python `float(v)`: numbers and bools coerce, parseable strings coerce,
everything else raises (ValueError for strings, TypeError otherwise) —
both caught by the decoders. -/
def pyFloat : PyVal → Except String ℚ
  | PyVal.num q => Except.ok q
  | PyVal.bool b => Except.ok (if b then 1 else 0)
  | PyVal.str s =>
    match parseFloatStr s with
    | some q => Except.ok q
    | Option.none => Except.error ("could not convert string to float: \x27" ++ s ++ "\x27")
  | v =>
    Except.error
      ("float() argument must be a string or a real number, not \x27" ++ pyTypeName v ++ "\x27")

/-- Rendering of a rational in Python number style (abbreviated: no claim
depends on the exact digits, only on `str` being total). -/
def ratStr (q : ℚ) : String :=
  if q.den = 1 then toString q.num else toString q.num ++ "/" ++ toString q.den

/-- Python `str(v)`: total — string coercion never fails.  Container
rendering is abbreviated; only totality is relied upon. -/
def pyStr : PyVal → String
  | PyVal.str s => s
  | PyVal.bool true => "True"
  | PyVal.bool false => "False"
  | PyVal.none => "None"
  | PyVal.num q => ratStr q
  | PyVal.list _ => "<list>"
  | PyVal.dict _ => "<dict>"

/-- Python `list(v)`: lists are copied, strings iterate to their characters,
dicts to their keys; numbers, bools and None raise TypeError. -/
def pyList : PyVal → Except String (List PyVal)
  | PyVal.list xs => Except.ok xs
  | PyVal.str s => Except.ok (s.toList.map (fun c => PyVal.str (String.mk [c])))
  | PyVal.dict d => Except.ok (d.map (fun e => PyVal.str e.1))
  | v => Except.error ("\x27" ++ pyTypeName v ++ "\x27 object is not iterable")

/-- Python truthiness: None, False, zero, and empty containers are falsy. -/
def pyTruthy : PyVal → Bool
  | PyVal.none => false
  | PyVal.bool b => b
  | PyVal.num q => decide (q ≠ 0)
  | PyVal.str s => decide (s ≠ "")
  | PyVal.list xs => !xs.isEmpty
  | PyVal.dict d => !d.isEmpty

/-- Python `v.get(k, dflt)` as invoked inside `Metric.from_dict` on its
argument.  The decoders call it only after a successful string subscript of
the same value, hence only on dicts; on every other shape the decoder has
already failed, so the catch-all branch here is unreachable from them. -/
def pyGet (v : PyVal) (k : String) (dflt : PyVal) : PyVal :=
  match v with
  | PyVal.dict d => dictGet d k dflt
  | _ => dflt

/-- Analysis metric with score, explanation, & suggestions (types.py 20-26).
`suggestions` holds the raw list elements: the Python code applies `list`
to the value but never coerces the elements. -/
structure Metric where
  score : ℚ
  explanation : String
  suggestions : List PyVal

/-- The try-block of `Metric.from_dict` (types.py 41-46), evaluation in
Python argument order: `data["score"]`, `float`, `data["explanation"]`,
`str`, `data.get("suggestions", [])`, `list`. -/
def Metric.decode (data : PyVal) : Except String Metric :=
  match pySubscript data "score" with
  | Except.error e => Except.error e
  | Except.ok sv =>
    match pyFloat sv with
    | Except.error e => Except.error e
    | Except.ok score =>
      match pySubscript data "explanation" with
      | Except.error e => Except.error e
      | Except.ok ev =>
        match pyList (pyGet data "suggestions" (PyVal.list [])) with
        | Except.error e => Except.error e
        | Except.ok suggestions =>
          Except.ok { score := score, explanation := pyStr ev, suggestions := suggestions }

/-- Python `Metric.from_dict` (types.py 28-48): the try-block with KeyError,
ValueError and TypeError re-raised as `ValueError("Invalid metric data: …")`. -/
def Metric.from_dict (data : PyVal) : Except String Metric :=
  match Metric.decode data with
  | Except.ok m => Except.ok m
  | Except.error e => Except.error ("Invalid metric data: " ++ e)

/-- Complete analysis result for a coding prompt (types.py 51-64), with the
dataclass defaults.  `improved_prompt` and `validation_reason` hold the raw
values the code stores without coercion (Python `None` as `PyVal.none`). -/
structure AnalysisResult where
  is_coding_related : Bool
  overall_score : Option ℚ := Option.none
  overall_assessment : Option String := Option.none
  specificity : Option Metric := Option.none
  clarity : Option Metric := Option.none
  context : Option Metric := Option.none
  constraints : Option Metric := Option.none
  brevity : Option Metric := Option.none
  improved_prompt : PyVal := PyVal.none
  validation_reason : PyVal := PyVal.none

/-- The five metric decodes of the full-analysis branch (types.py 97-101),
in source order: specificity, clarity, context, constraints, brevity. -/
def decodeMetrics (metrics : PyVal) :
    Except String (Metric × Metric × Metric × Metric × Metric) :=
  match pySubscript metrics "specificity" with
  | Except.error e => Except.error e
  | Except.ok spv =>
    match Metric.from_dict spv with
    | Except.error e => Except.error e
    | Except.ok sp =>
      match pySubscript metrics "clarity" with
      | Except.error e => Except.error e
      | Except.ok clv =>
        match Metric.from_dict clv with
        | Except.error e => Except.error e
        | Except.ok cl =>
          match pySubscript metrics "context" with
          | Except.error e => Except.error e
          | Except.ok cxv =>
            match Metric.from_dict cxv with
            | Except.error e => Except.error e
            | Except.ok cx =>
              match pySubscript metrics "constraints" with
              | Except.error e => Except.error e
              | Except.ok csv =>
                match Metric.from_dict csv with
                | Except.error e => Except.error e
                | Except.ok cs =>
                  match pySubscript metrics "brevity" with
                  | Except.error e => Except.error e
                  | Except.ok brv =>
                    match Metric.from_dict brv with
                    | Except.error e => Except.error e
                    | Except.ok br => Except.ok (sp, cl, cx, cs, br)

/-- The try-block of the full-analysis branch of `AnalysisResult.from_dict`
(types.py 91-103), in Python evaluation order: `data["metrics"]`, then the
keyword arguments left to right (`overall_score` coercion, `overall_assessment`
coercion, five metric decodes, `data.get("improved_prompt")`). -/
def AnalysisResult.decode_full (data : List (String × PyVal)) :
    Except String AnalysisResult :=
  match dictItem data "metrics" with
  | Except.error e => Except.error e
  | Except.ok metrics =>
    match dictItem data "overall_score" with
    | Except.error e => Except.error e
    | Except.ok osv =>
      match pyFloat osv with
      | Except.error e => Except.error e
      | Except.ok os =>
        match dictItem data "overall_assessment" with
        | Except.error e => Except.error e
        | Except.ok oav =>
          match decodeMetrics metrics with
          | Except.error e => Except.error e
          | Except.ok (sp, cl, cx, cs, br) =>
            Except.ok
              { is_coding_related := true,
                overall_score := some os,
                overall_assessment := some (pyStr oav),
                specificity := some sp,
                clarity := some cl,
                context := some cx,
                constraints := some cs,
                brevity := some br,
                improved_prompt := dictGet data "improved_prompt" PyVal.none }

/-- Python `AnalysisResult.from_dict` (types.py 66-105): read `is_coding_related`
with default True; on a falsy value return the rejected variant with
`validation_reason = data.get("reason", "Not a coding prompt")`; otherwise
run the full decode, re-raising any KeyError/ValueError/TypeError as
`ValueError("Invalid analysis data: …")`. -/
def AnalysisResult.from_dict (data : List (String × PyVal)) :
    Except String AnalysisResult :=
  let is_coding_related := dictGet data "is_coding_related" (PyVal.bool true)
  if pyTruthy is_coding_related = false then
    Except.ok
      { is_coding_related := false,
        validation_reason := dictGet data "reason" (PyVal.str "Not a coding prompt") }
  else
    match AnalysisResult.decode_full data with
    | Except.ok a => Except.ok a
    | Except.error e => Except.error ("Invalid analysis data: " ++ e)

/-- Function `get_score_assessment` (types.py 108-125). -/
def get_score_assessment (score : ℚ) : String :=
  if score ≥ 9 then "Excellent"
  else if score ≥ 7 then "Good"
  else if score ≥ 5 then "Fair"
  else if score ≥ 3 then "Needs improvement"
  else "Poor"

/-- Rank of an assessment label, for stating monotonicity: Poor(0) up to
Excellent(4); not a function of the source. -/
def assessment_rank (label : String) : ℕ :=
  if label = "Poor" then 0
  else if label = "Needs improvement" then 1
  else if label = "Fair" then 2
  else if label = "Good" then 3
  else 4

/-- Whether `pat` occurs as a contiguous substring of `l` (used only to
state that an error message does or does not mention a field name). -/
def listHasSub (pat l : List Char) : Bool :=
  match l with
  | [] => pat.isEmpty
  | _ :: t => pat.isPrefixOf l || listHasSub pat t

/-- Substring occurrence on strings. -/
def strHasSub (s pat : String) : Bool := listHasSub pat.toList s.toList

/-- Whether the standard input stream is an interactive terminal or a pipe
carrying the given content (cli.py `sys.stdin.isatty` / `sys.stdin.read`). -/
inductive StdinState : Type where
  | tty : StdinState
  | piped (content : String) : StdinState

/-- Function `get_prompt_input` (cli.py 46-70): resolve the prompt from the optional
command-line argument, falling back to stripped standard input; an
interactive terminal with no argument, or an empty resolved prompt, calls
`sys.exit(1)` (embedded as `Except.error` carrying the exit status). -/
def get_prompt_input (prompt : Option String) (stdin : StdinState) : Except ℕ String :=
  let resolved : Except ℕ String :=
    match prompt with
    | Option.none =>
      match stdin with
      | StdinState.piped content => Except.ok (pyStrip content)
      | StdinState.tty => Except.error 1
    | some p => Except.ok p
  match resolved with
  | Except.error c => Except.error c
  | Except.ok p => if p = "" then Except.error 1 else Except.ok p

/-- Outcome of `run` (cli.py 73-111) up to the first network interaction:
either the process exited with the given status beforehand, or control
reached `analyze_prompt` — the function whose job is the single Gemini
network round trip — with the given prompt text. -/
inductive RunOutcome : Type where
  | exited (code : ℕ) : RunOutcome
  | network_call (prompt_text : String) : RunOutcome

/-- The prompt-resolution prefix of `run` (cli.py 94-102): after argument
parsing, `get_prompt_input` runs; a `sys.exit` inside it raises SystemExit,
which none of the except clauses of run catch (they catch Exception subclasses
and KeyboardInterrupt), so the process exits with that status; otherwise
`analyze_prompt(prompt_text)` is invoked, which performs the network call
(after environment/credential loading, which is out of scope). -/
def run_until_network (prompt_arg : Option String) (stdin : StdinState) : RunOutcome :=
  match get_prompt_input prompt_arg stdin with
  | Except.error c => RunOutcome.exited c
  | Except.ok p => RunOutcome.network_call p

/-- The state of the argument parser relevant to its `error` override:
program name and the usage text `print_usage` emits (arg_parser.py). -/
structure ArgParser where
  prog : String
  usage : String

/-- Method `ArgParser.error` (arg_parser.py 21-25): print the formatted error
message to the error stream, print usage, then `sys.exit(0)`.  The result
is the pair (lines printed to the error stream, exit status). -/
def ArgParser.error (p : ArgParser) (message : String) : List String × ℕ :=
  (["[bold red]" ++ p.prog ++ ": error:[/bold red] " ++ message, p.usage], 0)

/-- Modelled from the spec: `rich.markup.escape` is external library code;
the spec requires the fallback to show "the literal text with any
characters that could be misinterpreted as markup escaped".  Escaping
inserts a backslash before each opening square bracket. -/
def escapeMarkupChars : List Char → List Char
  | [] => []
  | c :: rest =>
    if c = '[' then '\\' :: '[' :: escapeMarkupChars rest
    else c :: escapeMarkupChars rest

/-- String form of `escapeMarkupChars`. -/
def escapeMarkup (s : String) : String := String.mk (escapeMarkupChars s.toList)

/-- Inverse reading of the escaping: drops the backslash inserted before
each opening bracket.  Used only to state that escaping never drops
content. -/
def unescapeMarkupChars : List Char → List Char
  | [] => []
  | [c] => [c]
  | c1 :: c2 :: rest =>
    if c1 = '\\' ∧ c2 = '[' then '[' :: unescapeMarkupChars rest
    else c1 :: unescapeMarkupChars (c2 :: rest)

/-- String form of `unescapeMarkupChars`. -/
def unescapeMarkup (s : String) : String := String.mk (unescapeMarkupChars s.toList)

/-- A rendered rich-text value: markup successfully interpreted from the
given source, or plain literal text (`rich.text.Text`). -/
inductive RText : Type where
  | markup (source : String) : RText
  | plain (literal : String) : RText

/-- Function `_safe_render_markup` (output.py 111-124): try `Text.from_markup`; on
any exception fall back to the literal text with markup escaped.
`Text.from_markup` is external library code, embedded abstractly as an
arbitrary fallible parser passed in as `from_markup`. -/
def safe_render_markup (from_markup : String → Except String RText) (text : String) : RText :=
  match from_markup text with
  | Except.ok t => t
  | Except.error _ => RText.plain (escapeMarkup text)

/-- Function `_get_display_width` (output.py 58-74): breakpoint policy over the
current terminal width. -/
def get_display_width (terminal_width : ℤ) : ℤ :=
  if terminal_width ≥ 120 then min 100 (terminal_width - 20)
  else if terminal_width ≥ 80 then terminal_width - 10
  else terminal_width - 4

/-- Function `_get_score_style` (output.py 77-94). -/
def get_score_style (score : ℚ) : String :=
  if score ≥ 9 then "score.excellent"
  else if score ≥ 7 then "score.good"
  else if score ≥ 5 then "score.fair"
  else if score ≥ 3 then "score.poor"
  else "score.very_poor"

/-- One output block written by `display_analysis` (output.py): section
rules, bordered panels, and the blank separator lines. -/
inductive Block : Type where
  | rule (title : String) : Block
  | prompt_panel (content : String) (width : ℤ) : Block
  | analysis_panel (score_line : String) (rows : List (String × String × String × String))
      (table_width : ℤ) (width : ℤ) : Block
  | text_panel (content : RText) (width : ℤ) : Block
  | list_panel (items : List RText) (width : ℤ) : Block
  | blank : Block

/-- Function `_create_overall_score_display` (output.py 127-144) applied to
`analysis.overall_score`: a None score raises TypeError at the first `>=`
comparison inside `_get_score_style`. -/
def requireScore : Option ℚ → Except String ℚ
  | some q => Except.ok q
  | Option.none =>
    Except.error "\x27>=\x27 not supported between instances of \x27NoneType\x27 and \x27int\x27"

/-- The overall score line of `_create_overall_score_display`
(label, `score/10`, bullet, assessment), flattened to one string. -/
def score_line_text (score : ℚ) : String :=
  "Overall Score: " ++ ratStr score ++ "/10 • " ++ get_score_assessment score

/-- One row of `_create_metrics_table` (output.py 179-183): accessing
`metric.score` on a None metric raises AttributeError. -/
def metricRow (name : String) (m : Option Metric) :
    Except String (String × String × String × String) :=
  match m with
  | Option.none => Except.error "\x27NoneType\x27 object has no attribute \x27score\x27"
  | some mm =>
    Except.ok (name, ratStr mm.score ++ "/10", get_score_style mm.score,
      get_score_assessment mm.score)

/-- The rows of `_create_metrics_table` (output.py 171-183), in the fixed
source order: Specificity, Clarity, Context, Constraints, Brevity. -/
def metricsRows (a : AnalysisResult) :
    Except String (List (String × String × String × String)) :=
  match metricRow "Specificity" a.specificity with
  | Except.error e => Except.error e
  | Except.ok r1 =>
    match metricRow "Clarity" a.clarity with
    | Except.error e => Except.error e
    | Except.ok r2 =>
      match metricRow "Context" a.context with
      | Except.error e => Except.error e
      | Except.ok r3 =>
        match metricRow "Constraints" a.constraints with
        | Except.error e => Except.error e
        | Except.ok r4 =>
          match metricRow "Brevity" a.brevity with
          | Except.error e => Except.error e
          | Except.ok r5 => Except.ok [r1, r2, r3, r4, r5]

/-- Section 3 reads `analysis.overall_assessment` and hands it to
`_safe_render_markup`, which expects a string: on a None value even the
escape fallback raises (AttributeError on `None.replace`), so the None
case is an error; the claims only concern populated results. -/
def requireText : Option String → Except String String
  | some s => Except.ok s
  | Option.none => Except.error "\x27NoneType\x27 object has no attribute \x27replace\x27"

/-- The attribute names the frozen dataclass `AnalysisResult` defines
(types.py 55-64). -/
def AnalysisResult.attributes : List String :=
  ["is_coding_related", "overall_score", "overall_assessment", "specificity",
   "clarity", "context", "constraints", "brevity", "improved_prompt",
   "validation_reason"]

/-- Truthiness of Python attribute access `analysis.<name>`, as used by the
`if analysis.recommendations:` guard in `display_analysis` (output.py 256):
for a defined attribute, Python truthiness of its value (None is falsy, a
dataclass instance is truthy); for any other name, AttributeError. -/
def AnalysisResult.getattr_truthy (a : AnalysisResult) (name : String) :
    Except String Bool :=
  if name = "is_coding_related" then Except.ok a.is_coding_related
  else if name = "overall_score" then
    Except.ok (match a.overall_score with
      | some q => decide (q ≠ 0)
      | Option.none => false)
  else if name = "overall_assessment" then
    Except.ok (match a.overall_assessment with
      | some s => decide (s ≠ "")
      | Option.none => false)
  else if name = "specificity" then Except.ok a.specificity.isSome
  else if name = "clarity" then Except.ok a.clarity.isSome
  else if name = "context" then Except.ok a.context.isSome
  else if name = "constraints" then Except.ok a.constraints.isSome
  else if name = "brevity" then Except.ok a.brevity.isSome
  else if name = "improved_prompt" then Except.ok (pyTruthy a.improved_prompt)
  else if name = "validation_reason" then Except.ok (pyTruthy a.validation_reason)
  else
    Except.error
      ("\x27AnalysisResult\x27 object has no attribute \x27" ++ name ++ "\x27")

/-- Function `display_analysis` (output.py 205-276): the fixed sequence of output
blocks, or the uncaught exception message.  `from_markup` is the external
rich markup interpreter (abstract), `terminal_width` the current console
width queried by `_get_display_width`. -/
def display_analysis (from_markup : String → Except String RText)
    (terminal_width : ℤ) (analysis : AnalysisResult) (user_prompt : String) :
    Except String (List Block) :=
  let width := get_display_width terminal_width
  -- Section 1: Your Prompt (output.py 214-222)
  let s1 : List Block :=
    [Block.rule "📝 Your Prompt", Block.prompt_panel user_prompt width, Block.blank]
  -- Section 2: Quality Analysis (output.py 224-243)
  match requireScore analysis.overall_score with
  | Except.error e => Except.error e
  | Except.ok score =>
    match metricsRows analysis with
    | Except.error e => Except.error e
    | Except.ok rows =>
      let s2 : List Block :=
        [Block.rule "📊 Quality Analysis",
         Block.analysis_panel (score_line_text score) rows (width - 4) width,
         Block.blank]
      -- Section 3: Detailed Assessment (output.py 245-253)
      match requireText analysis.overall_assessment with
      | Except.error e => Except.error e
      | Except.ok oa =>
        let s3 : List Block :=
          [Block.rule "💭 Detailed Assessment",
           Block.text_panel (safe_render_markup from_markup oa) width,
           Block.blank]
        -- Section 4: Recommendations (output.py 255-265).  Evaluating the
        -- guard `if analysis.recommendations:` accesses an attribute the
        -- dataclass does not define, so the body below is unreachable.
        match AnalysisResult.getattr_truthy analysis "recommendations" with
        | Except.error e => Except.error e
        | Except.ok recommendations_truthy =>
          let s4 : List Block :=
            if recommendations_truthy then
              [Block.rule "💡 Recommendations", Block.list_panel [] width, Block.blank]
            else []
          -- Section 5: Improved Prompt (output.py 267-276)
          let s5 : List Block :=
            if pyTruthy analysis.improved_prompt then
              [Block.rule "✨ Improved Prompt",
               Block.text_panel
                 (safe_render_markup from_markup (pyStr analysis.improved_prompt)) width,
               Block.blank]
            else []
          Except.ok (s1 ++ s2 ++ s3 ++ s4 ++ s5)

/-- Remove every binding of key `k`: the input mapping "with `k` missing". -/
def removeKey (d : List (String × PyVal)) (k : String) : List (String × PyVal) :=
  d.filter (fun e => decide (e.1 ≠ k))

/-- Set key `k` to `v` (Python `d[k] = v` up to binding order, which
`dictLookup` ignores). -/
def setKey (d : List (String × PyVal)) (k : String) (v : PyVal) :
    List (String × PyVal) :=
  (k, v) :: removeKey d k

/-- Entries of a well-formed metric sub-mapping (no `suggestions` key, so
the decoder takes the empty default). -/
def metricEntriesOk : List (String × PyVal) :=
  [("score", PyVal.num 8), ("explanation", PyVal.str "ok")]

/-- A well-formed metric sub-mapping. -/
def metricDictOk : PyVal := PyVal.dict metricEntriesOk

/-- The metric `metricDictOk` decodes to. -/
def metricOk : Metric := { score := 8, explanation := "ok", suggestions := [] }

/-- Entries of a well-formed `metrics` mapping. -/
def fullMetricsEntries : List (String × PyVal) :=
  [("specificity", metricDictOk), ("clarity", metricDictOk),
   ("context", metricDictOk), ("constraints", metricDictOk),
   ("brevity", metricDictOk)]

/-- A fully valid full-analysis input mapping. -/
def fullDict : List (String × PyVal) :=
  [("is_coding_related", PyVal.bool true),
   ("overall_score", PyVal.num 8),
   ("overall_assessment", PyVal.str "fine"),
   ("metrics", PyVal.dict fullMetricsEntries)]

/-- The result `fullDict` decodes to. -/
def fullResult : AnalysisResult :=
  { is_coding_related := true, overall_score := some 8,
    overall_assessment := some "fine",
    specificity := some metricOk, clarity := some metricOk,
    context := some metricOk, constraints := some metricOk,
    brevity := some metricOk }

/-- Variant of `fullDict` with the specificity explanation replaced by a non-text value
(Python `True`): `str()` coerces it, so the decode still succeeds. -/
def explanationNonTextDict : List (String × PyVal) :=
  [("is_coding_related", PyVal.bool true),
   ("overall_score", PyVal.num 8),
   ("overall_assessment", PyVal.str "fine"),
   ("metrics", PyVal.dict
     [("specificity", PyVal.dict [("score", PyVal.num 8), ("explanation", PyVal.bool true)]),
      ("clarity", metricDictOk), ("context", metricDictOk),
      ("constraints", metricDictOk), ("brevity", metricDictOk)])]

/-- The decode error produced when a metric score holds Python `None`:
the wrapped TypeError from `float(None)`.  It names no metric. -/
def floatNoneMsg : String :=
  "Invalid analysis data: Invalid metric data: float() argument must be a string or a real number, not \x27NoneType\x27"

/-- Whether a decode attempt failed. -/
def exceptFails {α : Type} : Except String α → Bool
  | Except.error _ => true
  | Except.ok _ => false

/-- Whether a value is a Python dict (used to state the wrong-shape cases:
string subscripting of any non-dict raises TypeError). -/
def PyVal.isDict : PyVal → Bool
  | PyVal.dict _ => true
  | _ => false

theorem dictLookup_removeKey_self (d : List (String × PyVal)) (k : String) :
    dictLookup (removeKey d k) k = Option.none := by
  induction d with
  | nil => rfl
  | cons e t ih =>
    rcases e with ⟨ke, v⟩
    by_cases he : ke = k
    · simpa [removeKey, List.filter_cons, he] using ih
    · simpa [removeKey, List.filter_cons, he, dictLookup] using ih

theorem dictLookup_removeKey_ne (d : List (String × PyVal)) (k k2 : String)
    (h : k2 ≠ k) : dictLookup (removeKey d k) k2 = dictLookup d k2 := by
  induction d with
  | nil => rfl
  | cons e t ih =>
    rcases e with ⟨ke, v⟩
    have hk2 : k ≠ k2 := fun hh => h hh.symm
    by_cases he : ke = k
    · simpa [removeKey, List.filter_cons, he, dictLookup, hk2] using ih
    · by_cases he2 : ke = k2
      · simp [removeKey, List.filter_cons, he, dictLookup, he2, h]
      · simpa [removeKey, List.filter_cons, he, dictLookup, he2] using ih

theorem dictLookup_setKey_self (d : List (String × PyVal)) (k : String) (v : PyVal) :
    dictLookup (setKey d k v) k = some v := by
  simp [setKey, dictLookup]

theorem dictLookup_setKey_ne (d : List (String × PyVal)) (k k2 : String) (v : PyVal)
    (h : k2 ≠ k) : dictLookup (setKey d k v) k2 = dictLookup d k2 := by
  have hk : k ≠ k2 := fun hh => h hh.symm
  simp [setKey, dictLookup, hk, dictLookup_removeKey_ne d k k2 h]

theorem dictItem_congr {d1 d2 : List (String × PyVal)} (k : String)
    (h : dictLookup d1 k = dictLookup d2 k) : dictItem d1 k = dictItem d2 k := by
  unfold dictItem; rw [h]

theorem dictGet_congr {d1 d2 : List (String × PyVal)} (k : String) (dflt : PyVal)
    (h : dictLookup d1 k = dictLookup d2 k) : dictGet d1 k dflt = dictGet d2 k dflt := by
  unfold dictGet; rw [h]

theorem dictItem_of_lookup {d : List (String × PyVal)} {k : String} {v : PyVal}
    (h : dictLookup d k = some v) : dictItem d k = Except.ok v := by
  unfold dictItem; rw [h]

theorem dictItem_of_lookup_none {d : List (String × PyVal)} {k : String}
    (h : dictLookup d k = Option.none) :
    dictItem d k = Except.error (keyErrStr k) := by
  unfold dictItem; rw [h]

theorem lookup_of_dictItem_ok {d : List (String × PyVal)} {k : String} {v : PyVal}
    (h : dictItem d k = Except.ok v) : dictLookup d k = some v := by
  unfold dictItem at h
  cases hl : dictLookup d k with
  | none => rw [hl] at h; exact Except.noConfusion h
  | some w => rw [hl] at h; cases h; rfl

/-- String subscripting of any non-dict value raises TypeError. -/
theorem pySubscript_of_not_dict {v : PyVal} (k : String)
    (h : PyVal.isDict v = false) : ∃ e, pySubscript v k = Except.error e := by
  cases v with
  | dict entries => exact absurd h (by simp [PyVal.isDict])
  | none => exact ⟨_, rfl⟩
  | bool b => exact ⟨_, rfl⟩
  | num q => exact ⟨_, rfl⟩
  | str s => exact ⟨_, rfl⟩
  | list xs => exact ⟨_, rfl⟩

/-- The rejected branch of `from_dict`, as an equation. -/
theorem from_dict_rejected_eq {d : List (String × PyVal)}
    (h : pyTruthy (dictGet d "is_coding_related" (PyVal.bool true)) = false) :
    AnalysisResult.from_dict d =
      Except.ok
        { is_coding_related := false,
          validation_reason := dictGet d "reason" (PyVal.str "Not a coding prompt") } := by
  unfold AnalysisResult.from_dict
  simp [h]

/-- In the full-analysis branch, success of `from_dict` is success of the
try-block. -/
theorem from_dict_full_ok_iff {d : List (String × PyVal)} {r : AnalysisResult}
    (h : pyTruthy (dictGet d "is_coding_related" (PyVal.bool true)) = true) :
    (AnalysisResult.from_dict d = Except.ok r ↔
      AnalysisResult.decode_full d = Except.ok r) := by
  unfold AnalysisResult.from_dict
  simp only [h]
  cases hd : AnalysisResult.decode_full d <;> simp

/-- In the full-analysis branch, a try-block failure is re-raised wrapped. -/
theorem from_dict_full_error {d : List (String × PyVal)} {e : String}
    (h : pyTruthy (dictGet d "is_coding_related" (PyVal.bool true)) = true)
    (he : AnalysisResult.decode_full d = Except.error e) :
    AnalysisResult.from_dict d = Except.error ("Invalid analysis data: " ++ e) := by
  unfold AnalysisResult.from_dict
  simp [h, he]

theorem Metric.from_dict_ok_iff {v : PyVal} {m : Metric} :
    Metric.from_dict v = Except.ok m ↔ Metric.decode v = Except.ok m := by
  unfold Metric.from_dict
  cases hd : Metric.decode v <;> simp

theorem Metric.from_dict_error {v : PyVal} {e : String}
    (h : Metric.decode v = Except.error e) :
    Metric.from_dict v = Except.error ("Invalid metric data: " ++ e) := by
  unfold Metric.from_dict
  simp [h]

/-- Success inversion for the metric try-block: every access and coercion
succeeded, in source order. -/
theorem Metric.decode_ok_inv {v : PyVal} {m : Metric}
    (h : Metric.decode v = Except.ok m) :
    ∃ sv ev,
      pySubscript v "score" = Except.ok sv ∧ pyFloat sv = Except.ok m.score ∧
      pySubscript v "explanation" = Except.ok ev ∧ pyStr ev = m.explanation ∧
      pyList (pyGet v "suggestions" (PyVal.list [])) = Except.ok m.suggestions := by
  unfold Metric.decode at h
  cases h1 : pySubscript v "score" with
  | error e => simp only [h1] at h; exact Except.noConfusion h
  | ok sv =>
    simp only [h1] at h
    cases h2 : pyFloat sv with
    | error e => simp only [h2] at h; exact Except.noConfusion h
    | ok score =>
      simp only [h2] at h
      cases h3 : pySubscript v "explanation" with
      | error e => simp only [h3] at h; exact Except.noConfusion h
      | ok ev =>
        simp only [h3] at h
        cases h4 : pyList (pyGet v "suggestions" (PyVal.list [])) with
        | error e => simp only [h4] at h; exact Except.noConfusion h
        | ok sugg =>
          simp only [h4] at h
          cases h
          exact ⟨sv, ev, rfl, h2, rfl, rfl, rfl⟩

/-- Success inversion for the five metric decodes, in source order. -/
theorem decodeMetrics_ok_inv {mv : PyVal}
    {t : Metric × Metric × Metric × Metric × Metric}
    (h : decodeMetrics mv = Except.ok t) :
    ∃ spv clv cxv csv brv,
      pySubscript mv "specificity" = Except.ok spv ∧
      Metric.from_dict spv = Except.ok t.1 ∧
      pySubscript mv "clarity" = Except.ok clv ∧
      Metric.from_dict clv = Except.ok t.2.1 ∧
      pySubscript mv "context" = Except.ok cxv ∧
      Metric.from_dict cxv = Except.ok t.2.2.1 ∧
      pySubscript mv "constraints" = Except.ok csv ∧
      Metric.from_dict csv = Except.ok t.2.2.2.1 ∧
      pySubscript mv "brevity" = Except.ok brv ∧
      Metric.from_dict brv = Except.ok t.2.2.2.2 := by
  unfold decodeMetrics at h
  cases h1 : pySubscript mv "specificity" with
  | error e => simp only [h1] at h; exact Except.noConfusion h
  | ok spv =>
  simp only [h1] at h
  cases h2 : Metric.from_dict spv with
  | error e => simp only [h2] at h; exact Except.noConfusion h
  | ok sp =>
  simp only [h2] at h
  cases h3 : pySubscript mv "clarity" with
  | error e => simp only [h3] at h; exact Except.noConfusion h
  | ok clv =>
  simp only [h3] at h
  cases h4 : Metric.from_dict clv with
  | error e => simp only [h4] at h; exact Except.noConfusion h
  | ok cl =>
  simp only [h4] at h
  cases h5 : pySubscript mv "context" with
  | error e => simp only [h5] at h; exact Except.noConfusion h
  | ok cxv =>
  simp only [h5] at h
  cases h6 : Metric.from_dict cxv with
  | error e => simp only [h6] at h; exact Except.noConfusion h
  | ok cx =>
  simp only [h6] at h
  cases h7 : pySubscript mv "constraints" with
  | error e => simp only [h7] at h; exact Except.noConfusion h
  | ok csv =>
  simp only [h7] at h
  cases h8 : Metric.from_dict csv with
  | error e => simp only [h8] at h; exact Except.noConfusion h
  | ok cs =>
  simp only [h8] at h
  cases h9 : pySubscript mv "brevity" with
  | error e => simp only [h9] at h; exact Except.noConfusion h
  | ok brv =>
  simp only [h9] at h
  cases h10 : Metric.from_dict brv with
  | error e => simp only [h10] at h; exact Except.noConfusion h
  | ok br =>
  simp only [h10] at h
  cases h
  exact ⟨spv, clv, cxv, csv, brv, rfl, h2, rfl, h4, rfl, h6, rfl, h8, rfl, h10⟩

/-- Success inversion for the full-analysis try-block: every top-level
access and coercion succeeded, and the result is the fully-populated
record. -/
theorem decode_full_ok_inv {d : List (String × PyVal)} {r : AnalysisResult}
    (h : AnalysisResult.decode_full d = Except.ok r) :
    ∃ mv osv os oav sp cl cx cs br,
      dictItem d "metrics" = Except.ok mv ∧
      dictItem d "overall_score" = Except.ok osv ∧
      pyFloat osv = Except.ok os ∧
      dictItem d "overall_assessment" = Except.ok oav ∧
      decodeMetrics mv = Except.ok (sp, cl, cx, cs, br) ∧
      r = { is_coding_related := true, overall_score := some os,
            overall_assessment := some (pyStr oav),
            specificity := some sp, clarity := some cl, context := some cx,
            constraints := some cs, brevity := some br,
            improved_prompt := dictGet d "improved_prompt" PyVal.none } := by
  unfold AnalysisResult.decode_full at h
  cases h1 : dictItem d "metrics" with
  | error e => simp only [h1] at h; exact Except.noConfusion h
  | ok mv =>
  simp only [h1] at h
  cases h2 : dictItem d "overall_score" with
  | error e => simp only [h2] at h; exact Except.noConfusion h
  | ok osv =>
  simp only [h2] at h
  cases h3 : pyFloat osv with
  | error e => simp only [h3] at h; exact Except.noConfusion h
  | ok os =>
  simp only [h3] at h
  cases h4 : dictItem d "overall_assessment" with
  | error e => simp only [h4] at h; exact Except.noConfusion h
  | ok oav =>
  simp only [h4] at h
  cases h5 : decodeMetrics mv with
  | error e => simp only [h5] at h; exact Except.noConfusion h
  | ok t =>
  obtain ⟨sp, cl, cx, cs, br⟩ := t
  simp only [h5] at h
  cases h
  exact ⟨mv, osv, os, oav, sp, cl, cx, cs, br, rfl, rfl, h3, rfl, h5, rfl⟩

/-- Numeric form of the assessment label rank. -/
theorem assessment_rank_get (s : ℚ) :
    assessment_rank (get_score_assessment s) =
      if s ≥ 9 then 4 else if s ≥ 7 then 3 else if s ≥ 5 then 2
      else if s ≥ 3 then 1 else 0 := by
  unfold get_score_assessment
  split_ifs <;> decide

/-- Attribute access `analysis.recommendations` always raises: the dataclass
defines no such attribute. -/
theorem getattr_truthy_recommendations (a : AnalysisResult) :
    AnalysisResult.getattr_truthy a "recommendations" =
      Except.error "\x27AnalysisResult\x27 object has no attribute \x27recommendations\x27" := rfl

/-- The escaped form of a string never starts with an unescaped opening
bracket. -/
theorem escapeMarkupChars_head_ne (l : List Char) (c : Char) (t : List Char)
    (h : escapeMarkupChars l = c :: t) : c ≠ '[' := by
  cases l with
  | nil => exact List.noConfusion h
  | cons c0 rest =>
    by_cases h0 : c0 = '['
    · unfold escapeMarkupChars at h
      rw [if_pos h0] at h
      cases h
      decide
    · unfold escapeMarkupChars at h
      rw [if_neg h0] at h
      cases h
      exact h0

/-- Escaping is reversible: no content is dropped. -/
theorem unescape_escape (l : List Char) :
    unescapeMarkupChars (escapeMarkupChars l) = l := by
  induction l with
  | nil => rfl
  | cons c t ih =>
    by_cases hc : c = '['
    · subst hc
      have e1 : escapeMarkupChars ('[' :: t) = '\\' :: '[' :: escapeMarkupChars t := by
        simp [escapeMarkupChars]
      have e2 : unescapeMarkupChars ('\\' :: '[' :: escapeMarkupChars t) =
          '[' :: unescapeMarkupChars (escapeMarkupChars t) := by
        simp [unescapeMarkupChars]
      rw [e1, e2, ih]
    · have e1 : escapeMarkupChars (c :: t) = c :: escapeMarkupChars t := by
        simp [escapeMarkupChars, hc]
      rw [e1]
      cases he : escapeMarkupChars t with
      | nil =>
        have ht : t = [] := by
          cases t with
          | nil => rfl
          | cons c0 r =>
            by_cases h0 : c0 = '['
            · unfold escapeMarkupChars at he
              rw [if_pos h0] at he
              exact List.noConfusion he
            · unfold escapeMarkupChars at he
              rw [if_neg h0] at he
              exact List.noConfusion he
        subst ht
        rfl
      | cons c2 rest =>
        have hne := escapeMarkupChars_head_ne t c2 rest he
        have e2 : unescapeMarkupChars (c :: c2 :: rest) =
            c :: unescapeMarkupChars (c2 :: rest) := by
          simp only [unescapeMarkupChars]
          rw [if_neg (fun hand => hne hand.2)]
        rw [e2, ← he, ih]

/-- Truthiness of `is_coding_related` is unchanged by setting another key. -/
theorem truthy_setKey {d : List (String × PyVal)} (k : String) (v : PyVal)
    (hk : "is_coding_related" ≠ k)
    (ht : pyTruthy (dictGet d "is_coding_related" (PyVal.bool true)) = true) :
    pyTruthy (dictGet (setKey d k v) "is_coding_related" (PyVal.bool true)) = true := by
  rw [dictGet_congr _ _ (dictLookup_setKey_ne d k "is_coding_related" v hk)]
  exact ht

/-- Truthiness of `is_coding_related` is unchanged by removing another key. -/
theorem truthy_removeKey {d : List (String × PyVal)} (k : String)
    (hk : "is_coding_related" ≠ k)
    (ht : pyTruthy (dictGet d "is_coding_related" (PyVal.bool true)) = true) :
    pyTruthy (dictGet (removeKey d k) "is_coding_related" (PyVal.bool true)) = true := by
  rw [dictGet_congr _ _ (dictLookup_removeKey_ne d k "is_coding_related" hk)]
  exact ht

/-- C3: `get_score_assessment` is a total function of a numeric score,
monotonic non-increasing as the score decreases, with inclusive thresholds:
on the ten listed inputs it returns exactly the listed labels, and for
every (also out-of-range) input it returns one of the five labels without
failing. -/
theorem get_score_assessment_monotone_table :
    (∀ s t : ℚ, s ≤ t →
      assessment_rank (get_score_assessment s) ≤ assessment_rank (get_score_assessment t))
    ∧ (get_score_assessment 1 = "Poor" ∧ get_score_assessment (299/100) = "Poor"
      ∧ get_score_assessment 3 = "Needs improvement"
      ∧ get_score_assessment (499/100) = "Needs improvement"
      ∧ get_score_assessment 5 = "Fair" ∧ get_score_assessment (699/100) = "Fair"
      ∧ get_score_assessment 7 = "Good" ∧ get_score_assessment (899/100) = "Good"
      ∧ get_score_assessment 9 = "Excellent" ∧ get_score_assessment 10 = "Excellent")
    ∧ (∀ s : ℚ, get_score_assessment s = "Excellent" ∨ get_score_assessment s = "Good"
      ∨ get_score_assessment s = "Fair" ∨ get_score_assessment s = "Needs improvement"
      ∨ get_score_assessment s = "Poor") := by
  refine ⟨?_, ?_, ?_⟩
  · intro s t hst
    rw [assessment_rank_get, assessment_rank_get]
    split_ifs <;> try norm_num
    all_goals linarith
  · refine ⟨?_, ?_, ?_, ?_, ?_, ?_, ?_, ?_, ?_, ?_⟩ <;> norm_num [get_score_assessment]
  · intro s
    unfold get_score_assessment
    split_ifs <;> simp

/-- C3 witness: the monotonicity hypothesis discharged at 2 ≤ 6. -/
theorem get_score_assessment_monotone_table_witness :
    assessment_rank (get_score_assessment 2) ≤ assessment_rank (get_score_assessment 6) :=
  get_score_assessment_monotone_table.1 2 6 (by norm_num)

/-- C4: for every mapping whose `is_coding_related` field is (Python)
`False`, `from_dict` returns the rejected variant with only
`validation_reason` populated — defaulting to "Not a coding prompt" when
`reason` is absent — all analysis-only fields None, and the result depends
only on the `reason` key, so malformed values under any other key cannot
cause an error. -/
theorem from_dict_false_rejected (d : List (String × PyVal))
    (h : dictLookup d "is_coding_related" = some (PyVal.bool false)) :
    AnalysisResult.from_dict d =
      Except.ok
        { is_coding_related := false, overall_score := Option.none,
          overall_assessment := Option.none, specificity := Option.none,
          clarity := Option.none, context := Option.none,
          constraints := Option.none, brevity := Option.none,
          improved_prompt := PyVal.none,
          validation_reason := dictGet d "reason" (PyVal.str "Not a coding prompt") }
    ∧ (dictLookup d "reason" = Option.none →
        AnalysisResult.from_dict d =
          Except.ok { is_coding_related := false,
                      validation_reason := PyVal.str "Not a coding prompt" })
    ∧ (∀ d2 : List (String × PyVal),
        dictLookup d2 "is_coding_related" = some (PyVal.bool false) →
        dictLookup d2 "reason" = dictLookup d "reason" →
        AnalysisResult.from_dict d2 = AnalysisResult.from_dict d) := by
  have ht : pyTruthy (dictGet d "is_coding_related" (PyVal.bool true)) = false := by
    simp [dictGet, h, pyTruthy]
  refine ⟨from_dict_rejected_eq ht, ?_, ?_⟩
  · intro hr
    rw [from_dict_rejected_eq ht]
    simp [dictGet, hr]
  · intro d2 h2 hr
    have ht2 : pyTruthy (dictGet d2 "is_coding_related" (PyVal.bool true)) = false := by
      simp [dictGet, h2, pyTruthy]
    rw [from_dict_rejected_eq ht, from_dict_rejected_eq ht2]
    unfold dictGet
    rw [hr]

/-- C4 witness: a mapping with `is_coding_related: false`, no `reason`, and
a malformed `metrics` value decodes to the default-reason rejected
variant. -/
theorem from_dict_false_rejected_witness :
    AnalysisResult.from_dict
        [("is_coding_related", PyVal.bool false), ("metrics", PyVal.num 3),
         ("overall_score", PyVal.str "garbage")] =
      Except.ok { is_coding_related := false,
                  validation_reason := PyVal.str "Not a coding prompt" } :=
  (from_dict_false_rejected
    [("is_coding_related", PyVal.bool false), ("metrics", PyVal.num 3),
     ("overall_score", PyVal.str "garbage")] rfl).2.1 rfl

/-- C9: `ArgParser.error` prints the formatted error message and the usage
text to the error stream and exits the process with status 0 (not a
non-zero status). -/
theorem argparser_error_exits_zero (p : ArgParser) (message : String) :
    (ArgParser.error p message).2 = 0
    ∧ (ArgParser.error p message).1 =
        ["[bold red]" ++ p.prog ++ ": error:[/bold red] " ++ message, p.usage] :=
  ⟨rfl, rfl⟩

/-- C7 (amended): an empty prompt argument, an interactive terminal with no
argument, and whitespace-only piped input all exit with status 1 before the
network call; but any non-empty argument — including whitespace-only text —
is passed through to `analyze_prompt` unstripped. -/
theorem prompt_validation_exits (sd : StdinState) (c : String)
    (hc : pyStrip c = "") :
    run_until_network (some "") sd = RunOutcome.exited 1
    ∧ run_until_network Option.none (StdinState.piped c) = RunOutcome.exited 1
    ∧ run_until_network Option.none StdinState.tty = RunOutcome.exited 1
    ∧ (∀ p : String, p ≠ "" → run_until_network (some p) sd = RunOutcome.network_call p) := by
  refine ⟨rfl, ?_, rfl, ?_⟩
  · simp [run_until_network, get_prompt_input, hc]
  · intro p hp
    simp [run_until_network, get_prompt_input, hp]

/-- C7 counterexample: the single-space prompt is whitespace-only, yet when
supplied as the command-line argument the run proceeds to the network call
instead of exiting. -/
theorem prompt_whitespace_arg_reaches_network :
    run_until_network (some " ") StdinState.tty = RunOutcome.network_call " "
    ∧ pyStrip " " = "" := ⟨rfl, rfl⟩

/-- C7 witness: whitespace-only piped input exits with status 1. -/
theorem prompt_validation_exits_witness :
    run_until_network Option.none (StdinState.piped "   \n") = RunOutcome.exited 1 :=
  (prompt_validation_exits StdinState.tty "   \n" rfl).2.1

/-- C8: `_safe_render_markup` is total for every input string and every
behaviour of the external markup interpreter: on success it returns the
interpreted text, on interpretation failure it returns the literal text
with markup characters escaped, and the escaping drops no content (it is
exactly inverted by `unescapeMarkup`). -/
theorem safe_render_markup_total_fallback
    (from_markup : String → Except String RText) (text : String) :
    (∀ t, from_markup text = Except.ok t → safe_render_markup from_markup text = t)
    ∧ (∀ e, from_markup text = Except.error e →
        safe_render_markup from_markup text = RText.plain (escapeMarkup text))
    ∧ unescapeMarkup (escapeMarkup text) = text := by
  refine ⟨?_, ?_, ?_⟩
  · intro t htm
    simp [safe_render_markup, htm]
  · intro e he
    simp [safe_render_markup, he]
  · show String.mk (unescapeMarkupChars (String.mk (escapeMarkupChars text.toList)).toList) = text
    rw [show (String.mk (escapeMarkupChars text.toList)).toList
          = escapeMarkupChars text.toList from rfl]
    rw [unescape_escape]
    rfl

/-- C8 witness: a failing interpreter on an unterminated opening tag falls
back to the escaped literal text. -/
theorem safe_render_markup_total_fallback_witness :
    safe_render_markup (fun _ => Except.error "MarkupError") "[bold oops" =
      RText.plain "\\[bold oops" :=
  (safe_render_markup_total_fallback (fun _ => Except.error "MarkupError")
    "[bold oops").2.1 "MarkupError" rfl

/-- C10: `from_dict` branches on Python truthiness of the raw
`is_coding_related` value: every falsy value yields the rejected variant,
and for every truthy value (boolean or not) a successful decode yields the
full-analysis variant with `is_coding_related` normalized to the literal
True and `validation_reason` left None. -/
theorem from_dict_truthiness_branching (d : List (String × PyVal)) (v : PyVal)
    (h : dictLookup d "is_coding_related" = some v) :
    (pyTruthy v = false →
      AnalysisResult.from_dict d =
        Except.ok { is_coding_related := false,
                    validation_reason := dictGet d "reason" (PyVal.str "Not a coding prompt") })
    ∧ (pyTruthy v = true →
        ∀ r : AnalysisResult, AnalysisResult.from_dict d = Except.ok r →
          r.is_coding_related = true ∧ r.validation_reason = PyVal.none) := by
  constructor
  · intro hf
    exact from_dict_rejected_eq (by simp [dictGet, h, hf])
  · intro htv r hr
    have ht : pyTruthy (dictGet d "is_coding_related" (PyVal.bool true)) = true := by
      simp [dictGet, h, htv]
    rw [from_dict_full_ok_iff ht] at hr
    obtain ⟨mv, osv, os, oav, sp, cl, cx, cs, br, _, _, _, _, _, hr⟩ :=
      decode_full_ok_inv hr
    subst hr
    exact ⟨rfl, rfl⟩

/-- C10 witness: the falsy non-boolean 0 yields the rejected variant, and a
truthy non-boolean string yields a full-analysis result normalized to
True. -/
theorem from_dict_truthiness_branching_witness :
    AnalysisResult.from_dict [("is_coding_related", PyVal.num 0)] =
      Except.ok { is_coding_related := false,
                  validation_reason := PyVal.str "Not a coding prompt" }
    ∧ ((fullResult.is_coding_related = true ∧ fullResult.validation_reason = PyVal.none)) :=
  ⟨(from_dict_truthiness_branching [("is_coding_related", PyVal.num 0)]
      (PyVal.num 0) rfl).1 rfl,
   (from_dict_truthiness_branching
      (("is_coding_related", PyVal.str "yes") :: fullDict.tail)
      (PyVal.str "yes") rfl).2 rfl fullResult rfl⟩

/-- C1 (code bug): for every validated full-analysis result — all five
metrics, `overall_score` and `overall_assessment` populated —
`display_analysis` does not produce the section sequence: it raises
AttributeError while evaluating the recommendations guard
`if analysis.recommendations:` (output.py 256), because the dataclass
defines no `recommendations` attribute. -/
theorem display_analysis_attribute_error
    (from_markup : String → Except String RText) (terminal_width : ℤ)
    (a : AnalysisResult) (user_prompt : String)
    (hicr : a.is_coding_related = true)
    (hos : a.overall_score.isSome = true)
    (hoa : a.overall_assessment.isSome = true)
    (hsp : a.specificity.isSome = true) (hcl : a.clarity.isSome = true)
    (hcx : a.context.isSome = true) (hcs : a.constraints.isSome = true)
    (hbr : a.brevity.isSome = true) :
    display_analysis from_markup terminal_width a user_prompt =
      Except.error "\x27AnalysisResult\x27 object has no attribute \x27recommendations\x27" := by
  obtain ⟨os, hos⟩ := Option.isSome_iff_exists.mp hos
  obtain ⟨oa, hoa⟩ := Option.isSome_iff_exists.mp hoa
  obtain ⟨m1, hsp⟩ := Option.isSome_iff_exists.mp hsp
  obtain ⟨m2, hcl⟩ := Option.isSome_iff_exists.mp hcl
  obtain ⟨m3, hcx⟩ := Option.isSome_iff_exists.mp hcx
  obtain ⟨m4, hcs⟩ := Option.isSome_iff_exists.mp hcs
  obtain ⟨m5, hbr⟩ := Option.isSome_iff_exists.mp hbr
  simp [display_analysis, requireScore, metricsRows, metricRow, requireText,
    hos, hoa, hsp, hcl, hcx, hcs, hbr, getattr_truthy_recommendations]

/-- C1 witness: the bug at a concrete validated result. -/
theorem display_analysis_attribute_error_witness :
    display_analysis (fun s => Except.ok (RText.markup s)) 100 fullResult "p" =
      Except.error "\x27AnalysisResult\x27 object has no attribute \x27recommendations\x27" :=
  display_analysis_attribute_error (fun s => Except.ok (RText.markup s)) 100
    fullResult "p" rfl rfl rfl rfl rfl rfl rfl rfl

/-- If the five metric decodes succeed on `md`, and `md2` agrees with `md`
on every metric name other than `name`, while the access-then-decode step
at `name` fails with `E`, then the five-metric decode of `md2` fails with
`E`. -/
theorem decodeMetrics_break (md md2 : List (String × PyVal))
    (sp cl cx cs br : Metric) (name : String) (E : String)
    (hdm : decodeMetrics (PyVal.dict md) = Except.ok (sp, cl, cx, cs, br))
    (hname : name ∈ ["specificity", "clarity", "context", "constraints", "brevity"])
    (hsame : ∀ n2, n2 ∈ ["specificity", "clarity", "context", "constraints", "brevity"] →
      n2 ≠ name → dictLookup md2 n2 = dictLookup md n2)
    (hbreak : (match pySubscript (PyVal.dict md2) name with
      | Except.error e => (Except.error e : Except String Metric)
      | Except.ok v => Metric.from_dict v) = Except.error E) :
    decodeMetrics (PyVal.dict md2) = Except.error E := by
  obtain ⟨spv, clv, cxv, csv, brv, s1, f1, s2, f2, s3, f3, s4, f4, s5, f5⟩ :=
    decodeMetrics_ok_inv hdm
  have m1 : name ≠ "specificity" →
      pySubscript (PyVal.dict md2) "specificity" = Except.ok spv := fun hn =>
    (dictItem_congr "specificity"
      (hsame "specificity" (by decide) (fun hh => hn hh.symm))).trans s1
  have m2 : name ≠ "clarity" →
      pySubscript (PyVal.dict md2) "clarity" = Except.ok clv := fun hn =>
    (dictItem_congr "clarity"
      (hsame "clarity" (by decide) (fun hh => hn hh.symm))).trans s2
  have m3 : name ≠ "context" →
      pySubscript (PyVal.dict md2) "context" = Except.ok cxv := fun hn =>
    (dictItem_congr "context"
      (hsame "context" (by decide) (fun hh => hn hh.symm))).trans s3
  have m4 : name ≠ "constraints" →
      pySubscript (PyVal.dict md2) "constraints" = Except.ok csv := fun hn =>
    (dictItem_congr "constraints"
      (hsame "constraints" (by decide) (fun hh => hn hh.symm))).trans s4
  simp only [List.mem_cons, List.not_mem_nil, or_false] at hname
  rcases hname with rfl | rfl | rfl | rfl | rfl
  · cases hs : pySubscript (PyVal.dict md2) "specificity" with
    | error e =>
      simp only [hs] at hbreak
      cases hbreak
      simp only [decodeMetrics, hs]
    | ok v =>
      simp only [hs] at hbreak
      simp only [decodeMetrics, hs, hbreak]
  · cases hs : pySubscript (PyVal.dict md2) "clarity" with
    | error e =>
      simp only [hs] at hbreak
      cases hbreak
      simp only [decodeMetrics, m1 (by decide), f1, hs]
    | ok v =>
      simp only [hs] at hbreak
      simp only [decodeMetrics, m1 (by decide), f1, hs, hbreak]
  · cases hs : pySubscript (PyVal.dict md2) "context" with
    | error e =>
      simp only [hs] at hbreak
      cases hbreak
      simp only [decodeMetrics, m1 (by decide), f1, m2 (by decide), f2, hs]
    | ok v =>
      simp only [hs] at hbreak
      simp only [decodeMetrics, m1 (by decide), f1, m2 (by decide), f2, hs, hbreak]
  · cases hs : pySubscript (PyVal.dict md2) "constraints" with
    | error e =>
      simp only [hs] at hbreak
      cases hbreak
      simp only [decodeMetrics, m1 (by decide), f1, m2 (by decide), f2,
        m3 (by decide), f3, hs]
    | ok v =>
      simp only [hs] at hbreak
      simp only [decodeMetrics, m1 (by decide), f1, m2 (by decide), f2,
        m3 (by decide), f3, hs, hbreak]
  · cases hs : pySubscript (PyVal.dict md2) "brevity" with
    | error e =>
      simp only [hs] at hbreak
      cases hbreak
      simp only [decodeMetrics, m1 (by decide), f1, m2 (by decide), f2,
        m3 (by decide), f3, m4 (by decide), f4, hs]
    | ok v =>
      simp only [hs] at hbreak
      simp only [decodeMetrics, m1 (by decide), f1, m2 (by decide), f2,
        m3 (by decide), f3, m4 (by decide), f4, hs, hbreak]

/-- Replacing the `metrics` value with one whose five-metric decode fails
makes the full-analysis try-block fail with the same error, provided the
other top-level steps succeed. -/
theorem decode_full_setMetrics_err (d : List (String × PyVal)) (newmv : PyVal)
    (osv oav : PyVal) (os : ℚ) (E : String)
    (hosv : dictItem d "overall_score" = Except.ok osv)
    (hofl : pyFloat osv = Except.ok os)
    (hoav : dictItem d "overall_assessment" = Except.ok oav)
    (hdm2 : decodeMetrics newmv = Except.error E) :
    AnalysisResult.decode_full (setKey d "metrics" newmv) = Except.error E := by
  have c1 : dictItem (setKey d "metrics" newmv) "metrics" = Except.ok newmv :=
    dictItem_of_lookup (dictLookup_setKey_self d "metrics" newmv)
  have c2 : dictItem (setKey d "metrics" newmv) "overall_score" = Except.ok osv :=
    (dictItem_congr "overall_score"
      (dictLookup_setKey_ne d "metrics" "overall_score" newmv (by decide))).trans hosv
  have c3 : dictItem (setKey d "metrics" newmv) "overall_assessment" = Except.ok oav :=
    (dictItem_congr "overall_assessment"
      (dictLookup_setKey_ne d "metrics" "overall_assessment" newmv (by decide))).trans hoav
  simp only [AnalysisResult.decode_full, c1, c2, hofl, c3, hdm2]

/-- Removing one of the three top-level required keys from a decodable
truthy mapping fails with the wrapped KeyError naming exactly that key. -/
theorem from_dict_removeKey_top (d : List (String × PyVal)) (r : AnalysisResult)
    (hok : AnalysisResult.from_dict d = Except.ok r)
    (ht : pyTruthy (dictGet d "is_coding_related" (PyVal.bool true)) = true) :
    ∀ k, k ∈ ["metrics", "overall_score", "overall_assessment"] →
      AnalysisResult.from_dict (removeKey d k) =
        Except.error ("Invalid analysis data: " ++ keyErrStr k) := by
  rw [from_dict_full_ok_iff ht] at hok
  obtain ⟨mv, osv, os, oav, sp, cl, cx, cs, br, hmv, hosv, hofl, hoav, hdm, _⟩ :=
    decode_full_ok_inv hok
  intro k hk
  simp only [List.mem_cons, List.not_mem_nil, or_false] at hk
  rcases hk with rfl | rfl | rfl
  · have ht' := truthy_removeKey "metrics" (by decide) ht
    have e1 : AnalysisResult.decode_full (removeKey d "metrics") =
        Except.error (keyErrStr "metrics") := by
      have l1 : dictItem (removeKey d "metrics") "metrics" =
          Except.error (keyErrStr "metrics") :=
        dictItem_of_lookup_none (dictLookup_removeKey_self d "metrics")
      simp only [AnalysisResult.decode_full, l1]
    exact from_dict_full_error ht' e1
  · have ht' := truthy_removeKey "overall_score" (by decide) ht
    have l1 : dictItem (removeKey d "overall_score") "metrics" = Except.ok mv :=
      (dictItem_congr "metrics"
        (dictLookup_removeKey_ne d "overall_score" "metrics" (by decide))).trans hmv
    have l2 : dictItem (removeKey d "overall_score") "overall_score" =
        Except.error (keyErrStr "overall_score") :=
      dictItem_of_lookup_none (dictLookup_removeKey_self d "overall_score")
    have e1 : AnalysisResult.decode_full (removeKey d "overall_score") =
        Except.error (keyErrStr "overall_score") := by
      simp only [AnalysisResult.decode_full, l1, l2]
    exact from_dict_full_error ht' e1
  · have ht' := truthy_removeKey "overall_assessment" (by decide) ht
    have l1 : dictItem (removeKey d "overall_assessment") "metrics" = Except.ok mv :=
      (dictItem_congr "metrics"
        (dictLookup_removeKey_ne d "overall_assessment" "metrics" (by decide))).trans hmv
    have l2 : dictItem (removeKey d "overall_assessment") "overall_score" =
        Except.ok osv :=
      (dictItem_congr "overall_score"
        (dictLookup_removeKey_ne d "overall_assessment" "overall_score"
          (by decide))).trans hosv
    have l3 : dictItem (removeKey d "overall_assessment") "overall_assessment" =
        Except.error (keyErrStr "overall_assessment") :=
      dictItem_of_lookup_none (dictLookup_removeKey_self d "overall_assessment")
    have e1 : AnalysisResult.decode_full (removeKey d "overall_assessment") =
        Except.error (keyErrStr "overall_assessment") := by
      simp only [AnalysisResult.decode_full, l1, l2, hofl, l3]
    exact from_dict_full_error ht' e1

/-- Removing any of the five metric entries from the metrics mapping of a
decodable truthy mapping fails with the wrapped KeyError naming exactly
that entry. -/
theorem from_dict_removeKey_metric (d : List (String × PyVal)) (r : AnalysisResult)
    (hok : AnalysisResult.from_dict d = Except.ok r)
    (ht : pyTruthy (dictGet d "is_coding_related" (PyVal.bool true)) = true) :
    ∀ md name, dictLookup d "metrics" = some (PyVal.dict md) →
      name ∈ ["specificity", "clarity", "context", "constraints", "brevity"] →
      AnalysisResult.from_dict (setKey d "metrics" (PyVal.dict (removeKey md name))) =
        Except.error ("Invalid analysis data: " ++ keyErrStr name) := by
  rw [from_dict_full_ok_iff ht] at hok
  obtain ⟨mv, osv, os, oav, sp, cl, cx, cs, br, hmv, hosv, hofl, hoav, hdm, _⟩ :=
    decode_full_ok_inv hok
  intro md name hmd hname
  obtain rfl : PyVal.dict md = mv :=
    Option.some.inj (by rw [← hmd]; exact lookup_of_dictItem_ok hmv)
  have ht' := truthy_setKey "metrics" (PyVal.dict (removeKey md name)) (by decide) ht
  have hb : (match pySubscript (PyVal.dict (removeKey md name)) name with
      | Except.error e => (Except.error e : Except String Metric)
      | Except.ok v => Metric.from_dict v) = Except.error (keyErrStr name) := by
    have hsub : pySubscript (PyVal.dict (removeKey md name)) name =
        Except.error (keyErrStr name) :=
      dictItem_of_lookup_none (dictLookup_removeKey_self md name)
    simp only [hsub]
  have hdm2 := decodeMetrics_break md (removeKey md name) sp cl cx cs br name
    (keyErrStr name) hdm hname
    (fun n2 _ hn => dictLookup_removeKey_ne md name n2 hn) hb
  exact from_dict_full_error ht'
    (decode_full_setMetrics_err d (PyVal.dict (removeKey md name)) osv oav os
      (keyErrStr name) hosv hofl hoav hdm2)

/-- A mapping with `is_coding_related` wholly absent decodes exactly as if
the field were set to True: absence is silently treated as related and
never fails on its own. -/
theorem from_dict_icr_absent (d2 : List (String × PyVal))
    (h2 : dictLookup d2 "is_coding_related" = Option.none) :
    AnalysisResult.from_dict d2 =
      AnalysisResult.from_dict (setKey d2 "is_coding_related" (PyVal.bool true)) := by
  have hg : dictGet d2 "is_coding_related" (PyVal.bool true) = PyVal.bool true := by
    simp [dictGet, h2]
  have hg2 : dictGet (setKey d2 "is_coding_related" (PyVal.bool true))
      "is_coding_related" (PyVal.bool true) = PyVal.bool true := by
    simp [dictGet, dictLookup_setKey_self]
  have c1 : dictItem (setKey d2 "is_coding_related" (PyVal.bool true)) "metrics" =
      dictItem d2 "metrics" :=
    dictItem_congr "metrics"
      (dictLookup_setKey_ne d2 "is_coding_related" "metrics" (PyVal.bool true)
        (by decide))
  have c2 : dictItem (setKey d2 "is_coding_related" (PyVal.bool true))
      "overall_score" = dictItem d2 "overall_score" :=
    dictItem_congr "overall_score"
      (dictLookup_setKey_ne d2 "is_coding_related" "overall_score" (PyVal.bool true)
        (by decide))
  have c3 : dictItem (setKey d2 "is_coding_related" (PyVal.bool true))
      "overall_assessment" = dictItem d2 "overall_assessment" :=
    dictItem_congr "overall_assessment"
      (dictLookup_setKey_ne d2 "is_coding_related" "overall_assessment"
        (PyVal.bool true) (by decide))
  have c4 : dictGet (setKey d2 "is_coding_related" (PyVal.bool true))
      "improved_prompt" PyVal.none = dictGet d2 "improved_prompt" PyVal.none :=
    dictGet_congr "improved_prompt" PyVal.none
      (dictLookup_setKey_ne d2 "is_coding_related" "improved_prompt"
        (PyVal.bool true) (by decide))
  have hdf : AnalysisResult.decode_full (setKey d2 "is_coding_related" (PyVal.bool true)) =
      AnalysisResult.decode_full d2 := by
    unfold AnalysisResult.decode_full
    simp only [c1, c2, c3, c4]
  unfold AnalysisResult.from_dict
  simp [hg, hg2, hdf, pyTruthy]

/-- C5: with `is_coding_related` true — or wholly absent, which is silently
treated as true and never fails — removing any required field
(`overall_score`, `overall_assessment`, `metrics`, or any of the five
metrics entries) from an otherwise-decodable mapping makes `from_dict`
fail with a ValueError whose message is exactly the wrapped KeyError
naming that missing field. -/
theorem from_dict_missing_field_named (d : List (String × PyVal))
    (r : AnalysisResult)
    (hok : AnalysisResult.from_dict d = Except.ok r)
    (ht : pyTruthy (dictGet d "is_coding_related" (PyVal.bool true)) = true) :
    (∀ k, k ∈ ["metrics", "overall_score", "overall_assessment"] →
      AnalysisResult.from_dict (removeKey d k) =
        Except.error ("Invalid analysis data: " ++ keyErrStr k))
    ∧ (∀ md name, dictLookup d "metrics" = some (PyVal.dict md) →
        name ∈ ["specificity", "clarity", "context", "constraints", "brevity"] →
        AnalysisResult.from_dict
            (setKey d "metrics" (PyVal.dict (removeKey md name))) =
          Except.error ("Invalid analysis data: " ++ keyErrStr name))
    ∧ (∀ d2 : List (String × PyVal),
        dictLookup d2 "is_coding_related" = Option.none →
        AnalysisResult.from_dict d2 =
          AnalysisResult.from_dict (setKey d2 "is_coding_related" (PyVal.bool true))) :=
  ⟨from_dict_removeKey_top d r hok ht,
   from_dict_removeKey_metric d r hok ht,
   fun d2 h2 => from_dict_icr_absent d2 h2⟩

/-- C5 witness: removing `overall_score` from a decodable mapping fails
naming exactly that key. -/
theorem from_dict_missing_field_named_witness :
    AnalysisResult.from_dict (removeKey fullDict "overall_score") =
      Except.error ("Invalid analysis data: " ++ keyErrStr "overall_score") :=
  (from_dict_missing_field_named fullDict fullResult rfl rfl).1 "overall_score"
    (by decide)

/-- Setting the score of any of the five metrics of a decodable truthy
mapping to Python None makes `from_dict` fail with exactly the generic
wrapped coercion message `floatNoneMsg`. -/
theorem from_dict_score_none_generic (d : List (String × PyVal))
    (r : AnalysisResult) (md smd : List (String × PyVal)) (name : String)
    (hok : AnalysisResult.from_dict d = Except.ok r)
    (ht : pyTruthy (dictGet d "is_coding_related" (PyVal.bool true)) = true)
    (hmd : dictLookup d "metrics" = some (PyVal.dict md))
    (hname : name ∈ ["specificity", "clarity", "context", "constraints", "brevity"]) :
    AnalysisResult.from_dict
        (setKey d "metrics"
          (PyVal.dict (setKey md name (PyVal.dict (setKey smd "score" PyVal.none))))) =
      Except.error floatNoneMsg := by
  rw [from_dict_full_ok_iff ht] at hok
  obtain ⟨mv, osv, os, oav, sp, cl, cx, cs, br, hmv, hosv, hofl, hoav, hdm, _⟩ :=
    decode_full_ok_inv hok
  obtain rfl : PyVal.dict md = mv :=
    Option.some.inj (by rw [← hmd]; exact lookup_of_dictItem_ok hmv)
  have ht' := truthy_setKey "metrics"
    (PyVal.dict (setKey md name (PyVal.dict (setKey smd "score" PyVal.none))))
    (by decide) ht
  have hdec : Metric.decode (PyVal.dict (setKey smd "score" PyVal.none)) =
      Except.error
        "float() argument must be a string or a real number, not \x27NoneType\x27" := by
    have hsc : pySubscript (PyVal.dict (setKey smd "score" PyVal.none)) "score" =
        Except.ok PyVal.none :=
      dictItem_of_lookup (dictLookup_setKey_self smd "score" PyVal.none)
    simp only [Metric.decode, hsc]
    rfl
  have hbm := Metric.from_dict_error hdec
  have hb : (match pySubscript
        (PyVal.dict (setKey md name (PyVal.dict (setKey smd "score" PyVal.none)))) name with
      | Except.error e => (Except.error e : Except String Metric)
      | Except.ok v => Metric.from_dict v) =
      Except.error
        ("Invalid metric data: " ++
          "float() argument must be a string or a real number, not \x27NoneType\x27") := by
    have hsub : pySubscript
        (PyVal.dict (setKey md name (PyVal.dict (setKey smd "score" PyVal.none)))) name =
        Except.ok (PyVal.dict (setKey smd "score" PyVal.none)) :=
      dictItem_of_lookup (dictLookup_setKey_self md name _)
    simp only [hsub, hbm]
  have hdm2 := decodeMetrics_break md
    (setKey md name (PyVal.dict (setKey smd "score" PyVal.none))) sp cl cx cs br name
    ("Invalid metric data: " ++
      "float() argument must be a string or a real number, not \x27NoneType\x27")
    hdm hname (fun n2 _ hn => dictLookup_setKey_ne md name n2 _ hn) hb
  exact from_dict_full_error ht'
    (decode_full_setMetrics_err d
      (PyVal.dict (setKey md name (PyVal.dict (setKey smd "score" PyVal.none))))
      osv oav os _ hosv hofl hoav hdm2)

/-- C2 (amended): for every input mapping with `is_coding_related` true or
absent that contains a missing required key — `overall_score`,
`overall_assessment`, `metrics`, any of the five metric entries, or
`score`/`explanation` inside a metric sub-mapping — a wrong-shaped nested
value (a non-dict `metrics` value, a non-dict metric entry, or
`suggestions` holding a non-iterable value), or a value for `score`
(metric-level or top-level) that cannot be coerced to a number,
`AnalysisResult.from_dict` raises a decode error (ValueError) and never
returns a partially populated result.  Missing-key failures identify the
offending field (the wrapped KeyError names it; perturbation form), while
coercion failures raise the generic wrapped message without the field
path; the only behaviour the counterexample removes is the non-text
`explanation` case, which `str()` coerces instead of rejecting. -/
theorem from_dict_malformed_errors (d : List (String × PyVal))
    (ht : pyTruthy (dictGet d "is_coding_related" (PyVal.bool true)) = true) :
    ((dictLookup d "metrics" = Option.none ∨
      dictLookup d "overall_score" = Option.none ∨
      dictLookup d "overall_assessment" = Option.none) →
      exceptFails (AnalysisResult.from_dict d) = true)
    ∧ (∀ md name, dictLookup d "metrics" = some (PyVal.dict md) →
        name ∈ ["specificity", "clarity", "context", "constraints", "brevity"] →
        dictLookup md name = Option.none →
        exceptFails (AnalysisResult.from_dict d) = true)
    ∧ (∀ md name smd, dictLookup d "metrics" = some (PyVal.dict md) →
        name ∈ ["specificity", "clarity", "context", "constraints", "brevity"] →
        dictLookup md name = some (PyVal.dict smd) →
        (dictLookup smd "score" = Option.none ∨
          dictLookup smd "explanation" = Option.none) →
        exceptFails (AnalysisResult.from_dict d) = true)
    ∧ (∀ mv0, dictLookup d "metrics" = some mv0 → PyVal.isDict mv0 = false →
        exceptFails (AnalysisResult.from_dict d) = true)
    ∧ (∀ md name smv, dictLookup d "metrics" = some (PyVal.dict md) →
        name ∈ ["specificity", "clarity", "context", "constraints", "brevity"] →
        dictLookup md name = some smv → PyVal.isDict smv = false →
        exceptFails (AnalysisResult.from_dict d) = true)
    ∧ (∀ md name smd v, dictLookup d "metrics" = some (PyVal.dict md) →
        name ∈ ["specificity", "clarity", "context", "constraints", "brevity"] →
        dictLookup md name = some (PyVal.dict smd) →
        dictLookup smd "suggestions" = some v →
        (∃ e, pyList v = Except.error e) →
        exceptFails (AnalysisResult.from_dict d) = true)
    ∧ (∀ md name smd v, dictLookup d "metrics" = some (PyVal.dict md) →
        name ∈ ["specificity", "clarity", "context", "constraints", "brevity"] →
        dictLookup md name = some (PyVal.dict smd) →
        dictLookup smd "score" = some v →
        (∃ e, pyFloat v = Except.error e) →
        exceptFails (AnalysisResult.from_dict d) = true)
    ∧ (∀ v, dictLookup d "overall_score" = some v →
        (∃ e, pyFloat v = Except.error e) →
        exceptFails (AnalysisResult.from_dict d) = true)
    ∧ (∀ r, AnalysisResult.from_dict d = Except.ok r →
        r.is_coding_related = true ∧ (∃ q, r.overall_score = some q) ∧
        (∃ s, r.overall_assessment = some s) ∧ r.specificity.isSome = true ∧
        r.clarity.isSome = true ∧ r.context.isSome = true ∧
        r.constraints.isSome = true ∧ r.brevity.isSome = true ∧
        r.validation_reason = PyVal.none)
    ∧ (∀ r, AnalysisResult.from_dict d = Except.ok r →
        (∀ k, k ∈ ["metrics", "overall_score", "overall_assessment"] →
          AnalysisResult.from_dict (removeKey d k) =
            Except.error ("Invalid analysis data: " ++ keyErrStr k))
        ∧ (∀ md name, dictLookup d "metrics" = some (PyVal.dict md) →
            name ∈ ["specificity", "clarity", "context", "constraints", "brevity"] →
            AnalysisResult.from_dict
                (setKey d "metrics" (PyVal.dict (removeKey md name))) =
              Except.error ("Invalid analysis data: " ++ keyErrStr name))
        ∧ (∀ md smd name, dictLookup d "metrics" = some (PyVal.dict md) →
            name ∈ ["specificity", "clarity", "context", "constraints", "brevity"] →
            AnalysisResult.from_dict
                (setKey d "metrics"
                  (PyVal.dict (setKey md name
                    (PyVal.dict (setKey smd "score" PyVal.none))))) =
              Except.error floatNoneMsg)
        ∧ (∀ n2, n2 ∈ ["specificity", "clarity", "context", "constraints", "brevity"] →
            strHasSub floatNoneMsg n2 = false)) := by
  refine ⟨?_, ?_, ?_, ?_, ?_, ?_, ?_, ?_, ?_, ?_⟩
  · intro hmiss
    cases hfd : AnalysisResult.from_dict d with
    | error e => rfl
    | ok r =>
      rw [from_dict_full_ok_iff ht] at hfd
      obtain ⟨mv, osv, os, oav, sp, cl, cx, cs, br, hmv, hosv, hofl, hoav, hdm, _⟩ :=
        decode_full_ok_inv hfd
      rcases hmiss with hm | hm | hm
      · rw [lookup_of_dictItem_ok hmv] at hm; exact Option.noConfusion hm
      · rw [lookup_of_dictItem_ok hosv] at hm; exact Option.noConfusion hm
      · rw [lookup_of_dictItem_ok hoav] at hm; exact Option.noConfusion hm
  · intro md name hmd hname hmiss
    cases hfd : AnalysisResult.from_dict d with
    | error e => rfl
    | ok r =>
      rw [from_dict_full_ok_iff ht] at hfd
      obtain ⟨mv, osv, os, oav, sp, cl, cx, cs, br, hmv, hosv, hofl, hoav, hdm, _⟩ :=
        decode_full_ok_inv hfd
      obtain rfl : PyVal.dict md = mv :=
        Option.some.inj (by rw [← hmd]; exact lookup_of_dictItem_ok hmv)
      obtain ⟨spv, clv, cxv, csv, brv, s1, f1, s2, f2, s3, f3, s4, f4, s5, f5⟩ :=
        decodeMetrics_ok_inv hdm
      simp only [List.mem_cons, List.not_mem_nil, or_false] at hname
      rcases hname with rfl | rfl | rfl | rfl | rfl
      · rw [lookup_of_dictItem_ok s1] at hmiss; exact Option.noConfusion hmiss
      · rw [lookup_of_dictItem_ok s2] at hmiss; exact Option.noConfusion hmiss
      · rw [lookup_of_dictItem_ok s3] at hmiss; exact Option.noConfusion hmiss
      · rw [lookup_of_dictItem_ok s4] at hmiss; exact Option.noConfusion hmiss
      · rw [lookup_of_dictItem_ok s5] at hmiss; exact Option.noConfusion hmiss
  · intro md name smd hmd hname hsmd hmiss
    cases hfd : AnalysisResult.from_dict d with
    | error e => rfl
    | ok r =>
      rw [from_dict_full_ok_iff ht] at hfd
      obtain ⟨mv, osv, os, oav, sp, cl, cx, cs, br, hmv, hosv, hofl, hoav, hdm, _⟩ :=
        decode_full_ok_inv hfd
      obtain rfl : PyVal.dict md = mv :=
        Option.some.inj (by rw [← hmd]; exact lookup_of_dictItem_ok hmv)
      obtain ⟨spv, clv, cxv, csv, brv, s1, f1, s2, f2, s3, f3, s4, f4, s5, f5⟩ :=
        decodeMetrics_ok_inv hdm
      simp only [List.mem_cons, List.not_mem_nil, or_false] at hname
      rcases hname with rfl | rfl | rfl | rfl | rfl
      · obtain rfl : PyVal.dict smd = spv :=
          Option.some.inj (by rw [← hsmd]; exact lookup_of_dictItem_ok s1)
        obtain ⟨sv2, ev2, hsub2, _, hexp2, _, _⟩ :=
          Metric.decode_ok_inv (Metric.from_dict_ok_iff.mp f1)
        rcases hmiss with hm | hm
        · rw [lookup_of_dictItem_ok hsub2] at hm; exact Option.noConfusion hm
        · rw [lookup_of_dictItem_ok hexp2] at hm; exact Option.noConfusion hm
      · obtain rfl : PyVal.dict smd = clv :=
          Option.some.inj (by rw [← hsmd]; exact lookup_of_dictItem_ok s2)
        obtain ⟨sv2, ev2, hsub2, _, hexp2, _, _⟩ :=
          Metric.decode_ok_inv (Metric.from_dict_ok_iff.mp f2)
        rcases hmiss with hm | hm
        · rw [lookup_of_dictItem_ok hsub2] at hm; exact Option.noConfusion hm
        · rw [lookup_of_dictItem_ok hexp2] at hm; exact Option.noConfusion hm
      · obtain rfl : PyVal.dict smd = cxv :=
          Option.some.inj (by rw [← hsmd]; exact lookup_of_dictItem_ok s3)
        obtain ⟨sv2, ev2, hsub2, _, hexp2, _, _⟩ :=
          Metric.decode_ok_inv (Metric.from_dict_ok_iff.mp f3)
        rcases hmiss with hm | hm
        · rw [lookup_of_dictItem_ok hsub2] at hm; exact Option.noConfusion hm
        · rw [lookup_of_dictItem_ok hexp2] at hm; exact Option.noConfusion hm
      · obtain rfl : PyVal.dict smd = csv :=
          Option.some.inj (by rw [← hsmd]; exact lookup_of_dictItem_ok s4)
        obtain ⟨sv2, ev2, hsub2, _, hexp2, _, _⟩ :=
          Metric.decode_ok_inv (Metric.from_dict_ok_iff.mp f4)
        rcases hmiss with hm | hm
        · rw [lookup_of_dictItem_ok hsub2] at hm; exact Option.noConfusion hm
        · rw [lookup_of_dictItem_ok hexp2] at hm; exact Option.noConfusion hm
      · obtain rfl : PyVal.dict smd = brv :=
          Option.some.inj (by rw [← hsmd]; exact lookup_of_dictItem_ok s5)
        obtain ⟨sv2, ev2, hsub2, _, hexp2, _, _⟩ :=
          Metric.decode_ok_inv (Metric.from_dict_ok_iff.mp f5)
        rcases hmiss with hm | hm
        · rw [lookup_of_dictItem_ok hsub2] at hm; exact Option.noConfusion hm
        · rw [lookup_of_dictItem_ok hexp2] at hm; exact Option.noConfusion hm
  · intro mv0 hmv0 hnd
    cases hfd : AnalysisResult.from_dict d with
    | error e => rfl
    | ok r =>
      rw [from_dict_full_ok_iff ht] at hfd
      obtain ⟨mv, osv, os, oav, sp, cl, cx, cs, br, hmv, hosv, hofl, hoav, hdm, _⟩ :=
        decode_full_ok_inv hfd
      obtain rfl : mv0 = mv :=
        Option.some.inj (by rw [← hmv0]; exact lookup_of_dictItem_ok hmv)
      obtain ⟨spv, clv, cxv, csv, brv, s1, _, _, _, _, _, _, _, _, _⟩ :=
        decodeMetrics_ok_inv hdm
      obtain ⟨e2, he2⟩ := pySubscript_of_not_dict "specificity" hnd
      rw [he2] at s1
      exact Except.noConfusion s1
  · intro md name smv hmd hname hsmv hnd
    cases hfd : AnalysisResult.from_dict d with
    | error e => rfl
    | ok r =>
      rw [from_dict_full_ok_iff ht] at hfd
      obtain ⟨mv, osv, os, oav, sp, cl, cx, cs, br, hmv, hosv, hofl, hoav, hdm, _⟩ :=
        decode_full_ok_inv hfd
      obtain rfl : PyVal.dict md = mv :=
        Option.some.inj (by rw [← hmd]; exact lookup_of_dictItem_ok hmv)
      obtain ⟨spv, clv, cxv, csv, brv, s1, f1, s2, f2, s3, f3, s4, f4, s5, f5⟩ :=
        decodeMetrics_ok_inv hdm
      simp only [List.mem_cons, List.not_mem_nil, or_false] at hname
      rcases hname with rfl | rfl | rfl | rfl | rfl
      · obtain rfl : smv = spv :=
          Option.some.inj (by rw [← hsmv]; exact lookup_of_dictItem_ok s1)
        obtain ⟨sv2, ev2, hsub2, _, _, _, _⟩ :=
          Metric.decode_ok_inv (Metric.from_dict_ok_iff.mp f1)
        obtain ⟨e2, he2⟩ := pySubscript_of_not_dict "score" hnd
        rw [he2] at hsub2
        exact Except.noConfusion hsub2
      · obtain rfl : smv = clv :=
          Option.some.inj (by rw [← hsmv]; exact lookup_of_dictItem_ok s2)
        obtain ⟨sv2, ev2, hsub2, _, _, _, _⟩ :=
          Metric.decode_ok_inv (Metric.from_dict_ok_iff.mp f2)
        obtain ⟨e2, he2⟩ := pySubscript_of_not_dict "score" hnd
        rw [he2] at hsub2
        exact Except.noConfusion hsub2
      · obtain rfl : smv = cxv :=
          Option.some.inj (by rw [← hsmv]; exact lookup_of_dictItem_ok s3)
        obtain ⟨sv2, ev2, hsub2, _, _, _, _⟩ :=
          Metric.decode_ok_inv (Metric.from_dict_ok_iff.mp f3)
        obtain ⟨e2, he2⟩ := pySubscript_of_not_dict "score" hnd
        rw [he2] at hsub2
        exact Except.noConfusion hsub2
      · obtain rfl : smv = csv :=
          Option.some.inj (by rw [← hsmv]; exact lookup_of_dictItem_ok s4)
        obtain ⟨sv2, ev2, hsub2, _, _, _, _⟩ :=
          Metric.decode_ok_inv (Metric.from_dict_ok_iff.mp f4)
        obtain ⟨e2, he2⟩ := pySubscript_of_not_dict "score" hnd
        rw [he2] at hsub2
        exact Except.noConfusion hsub2
      · obtain rfl : smv = brv :=
          Option.some.inj (by rw [← hsmv]; exact lookup_of_dictItem_ok s5)
        obtain ⟨sv2, ev2, hsub2, _, _, _, _⟩ :=
          Metric.decode_ok_inv (Metric.from_dict_ok_iff.mp f5)
        obtain ⟨e2, he2⟩ := pySubscript_of_not_dict "score" hnd
        rw [he2] at hsub2
        exact Except.noConfusion hsub2
  · intro md name smd v hmd hname hsmd hsug hbad
    cases hfd : AnalysisResult.from_dict d with
    | error e => rfl
    | ok r =>
      rw [from_dict_full_ok_iff ht] at hfd
      obtain ⟨mv, osv, os, oav, sp, cl, cx, cs, br, hmv, hosv, hofl, hoav, hdm, _⟩ :=
        decode_full_ok_inv hfd
      obtain rfl : PyVal.dict md = mv :=
        Option.some.inj (by rw [← hmd]; exact lookup_of_dictItem_ok hmv)
      obtain ⟨spv, clv, cxv, csv, brv, s1, f1, s2, f2, s3, f3, s4, f4, s5, f5⟩ :=
        decodeMetrics_ok_inv hdm
      obtain ⟨e, he⟩ := hbad
      simp only [List.mem_cons, List.not_mem_nil, or_false] at hname
      have hget : pyGet (PyVal.dict smd) "suggestions" (PyVal.list []) = v := by
        show dictGet smd "suggestions" (PyVal.list []) = v
        unfold dictGet
        rw [hsug]
        rfl
      rcases hname with rfl | rfl | rfl | rfl | rfl
      · obtain rfl : PyVal.dict smd = spv :=
          Option.some.inj (by rw [← hsmd]; exact lookup_of_dictItem_ok s1)
        obtain ⟨sv2, ev2, _, _, _, _, hlist⟩ :=
          Metric.decode_ok_inv (Metric.from_dict_ok_iff.mp f1)
        rw [hget, he] at hlist
        exact Except.noConfusion hlist
      · obtain rfl : PyVal.dict smd = clv :=
          Option.some.inj (by rw [← hsmd]; exact lookup_of_dictItem_ok s2)
        obtain ⟨sv2, ev2, _, _, _, _, hlist⟩ :=
          Metric.decode_ok_inv (Metric.from_dict_ok_iff.mp f2)
        rw [hget, he] at hlist
        exact Except.noConfusion hlist
      · obtain rfl : PyVal.dict smd = cxv :=
          Option.some.inj (by rw [← hsmd]; exact lookup_of_dictItem_ok s3)
        obtain ⟨sv2, ev2, _, _, _, _, hlist⟩ :=
          Metric.decode_ok_inv (Metric.from_dict_ok_iff.mp f3)
        rw [hget, he] at hlist
        exact Except.noConfusion hlist
      · obtain rfl : PyVal.dict smd = csv :=
          Option.some.inj (by rw [← hsmd]; exact lookup_of_dictItem_ok s4)
        obtain ⟨sv2, ev2, _, _, _, _, hlist⟩ :=
          Metric.decode_ok_inv (Metric.from_dict_ok_iff.mp f4)
        rw [hget, he] at hlist
        exact Except.noConfusion hlist
      · obtain rfl : PyVal.dict smd = brv :=
          Option.some.inj (by rw [← hsmd]; exact lookup_of_dictItem_ok s5)
        obtain ⟨sv2, ev2, _, _, _, _, hlist⟩ :=
          Metric.decode_ok_inv (Metric.from_dict_ok_iff.mp f5)
        rw [hget, he] at hlist
        exact Except.noConfusion hlist
  · intro md name smd v hmd hname hsmd hsc hbad
    cases hfd : AnalysisResult.from_dict d with
    | error e => rfl
    | ok r =>
      rw [from_dict_full_ok_iff ht] at hfd
      obtain ⟨mv, osv, os, oav, sp, cl, cx, cs, br, hmv, hosv, hofl, hoav, hdm, _⟩ :=
        decode_full_ok_inv hfd
      obtain rfl : PyVal.dict md = mv :=
        Option.some.inj (by rw [← hmd]; exact lookup_of_dictItem_ok hmv)
      obtain ⟨spv, clv, cxv, csv, brv, s1, f1, s2, f2, s3, f3, s4, f4, s5, f5⟩ :=
        decodeMetrics_ok_inv hdm
      obtain ⟨e, he⟩ := hbad
      simp only [List.mem_cons, List.not_mem_nil, or_false] at hname
      rcases hname with rfl | rfl | rfl | rfl | rfl
      · obtain rfl : PyVal.dict smd = spv :=
          Option.some.inj (by rw [← hsmd]; exact lookup_of_dictItem_ok s1)
        obtain ⟨sv2, ev2, hsub2, hfl2, _, _, _⟩ :=
          Metric.decode_ok_inv (Metric.from_dict_ok_iff.mp f1)
        obtain rfl : v = sv2 :=
          Option.some.inj (by rw [← hsc]; exact lookup_of_dictItem_ok hsub2)
        rw [he] at hfl2
        exact Except.noConfusion hfl2
      · obtain rfl : PyVal.dict smd = clv :=
          Option.some.inj (by rw [← hsmd]; exact lookup_of_dictItem_ok s2)
        obtain ⟨sv2, ev2, hsub2, hfl2, _, _, _⟩ :=
          Metric.decode_ok_inv (Metric.from_dict_ok_iff.mp f2)
        obtain rfl : v = sv2 :=
          Option.some.inj (by rw [← hsc]; exact lookup_of_dictItem_ok hsub2)
        rw [he] at hfl2
        exact Except.noConfusion hfl2
      · obtain rfl : PyVal.dict smd = cxv :=
          Option.some.inj (by rw [← hsmd]; exact lookup_of_dictItem_ok s3)
        obtain ⟨sv2, ev2, hsub2, hfl2, _, _, _⟩ :=
          Metric.decode_ok_inv (Metric.from_dict_ok_iff.mp f3)
        obtain rfl : v = sv2 :=
          Option.some.inj (by rw [← hsc]; exact lookup_of_dictItem_ok hsub2)
        rw [he] at hfl2
        exact Except.noConfusion hfl2
      · obtain rfl : PyVal.dict smd = csv :=
          Option.some.inj (by rw [← hsmd]; exact lookup_of_dictItem_ok s4)
        obtain ⟨sv2, ev2, hsub2, hfl2, _, _, _⟩ :=
          Metric.decode_ok_inv (Metric.from_dict_ok_iff.mp f4)
        obtain rfl : v = sv2 :=
          Option.some.inj (by rw [← hsc]; exact lookup_of_dictItem_ok hsub2)
        rw [he] at hfl2
        exact Except.noConfusion hfl2
      · obtain rfl : PyVal.dict smd = brv :=
          Option.some.inj (by rw [← hsmd]; exact lookup_of_dictItem_ok s5)
        obtain ⟨sv2, ev2, hsub2, hfl2, _, _, _⟩ :=
          Metric.decode_ok_inv (Metric.from_dict_ok_iff.mp f5)
        obtain rfl : v = sv2 :=
          Option.some.inj (by rw [← hsc]; exact lookup_of_dictItem_ok hsub2)
        rw [he] at hfl2
        exact Except.noConfusion hfl2
  · intro v hv hbad
    cases hfd : AnalysisResult.from_dict d with
    | error e => rfl
    | ok r =>
      rw [from_dict_full_ok_iff ht] at hfd
      obtain ⟨mv, osv, os, oav, sp, cl, cx, cs, br, hmv, hosv, hofl, hoav, hdm, _⟩ :=
        decode_full_ok_inv hfd
      obtain ⟨e, he⟩ := hbad
      obtain rfl : v = osv :=
        Option.some.inj (by rw [← hv]; exact lookup_of_dictItem_ok hosv)
      rw [he] at hofl
      exact Except.noConfusion hofl
  · intro r hr
    rw [from_dict_full_ok_iff ht] at hr
    obtain ⟨mv, osv, os, oav, sp, cl, cx, cs, br, _, _, _, _, _, hreq⟩ :=
      decode_full_ok_inv hr
    subst hreq
    exact ⟨rfl, ⟨os, rfl⟩, ⟨pyStr oav, rfl⟩, rfl, rfl, rfl, rfl, rfl, rfl⟩
  · intro r hr
    refine ⟨from_dict_removeKey_top d r hr ht,
      from_dict_removeKey_metric d r hr ht, ?_, by decide⟩
    intro md smd name hmd hname
    exact from_dict_score_none_generic d r md smd name hr ht hmd hname

/-- C2 counterexample: a non-text `explanation` value does not make the
decode fail — `str()` coerces Python `True` to "True" and the whole decode
succeeds, contradicting the claim that such a mapping raises a decode
error. -/
theorem from_dict_nontext_explanation_succeeds :
    AnalysisResult.from_dict explanationNonTextDict =
      Except.ok
        { is_coding_related := true, overall_score := some 8,
          overall_assessment := some "fine",
          specificity := some { score := 8, explanation := "True", suggestions := [] },
          clarity := some metricOk, context := some metricOk,
          constraints := some metricOk, brevity := some metricOk } := rfl

/-- C2 witness: an uncoercible top-level `overall_score` and a non-dict
`metrics` value each make the decode fail. -/
theorem from_dict_malformed_errors_witness :
    exceptFails (AnalysisResult.from_dict
        (setKey fullDict "overall_score" (PyVal.str "abc"))) = true
    ∧ exceptFails (AnalysisResult.from_dict
        (setKey fullDict "metrics" (PyVal.num 3))) = true :=
  ⟨(from_dict_malformed_errors (setKey fullDict "overall_score" (PyVal.str "abc"))
      rfl).2.2.2.2.2.2.2.1 (PyVal.str "abc") rfl
      ⟨"could not convert string to float: \x27abc\x27", rfl⟩,
   (from_dict_malformed_errors (setKey fullDict "metrics" (PyVal.num 3))
      rfl).2.2.2.1 (PyVal.num 3) rfl rfl⟩

/-- C6 (amended): a score value inside one of the five metric sub-mappings
that fails to coerce causes a decode error (ValueError), but contrary to
the claim its message does not name the metric: setting the score of a metric
to Python None in an otherwise-decodable mapping yields exactly the
wrapped coercion failure `floatNoneMsg`, which contains none of the five
metric names. -/
theorem from_dict_score_uncoercible_message (d : List (String × PyVal))
    (r : AnalysisResult) (md smd : List (String × PyVal)) (name : String)
    (hok : AnalysisResult.from_dict d = Except.ok r)
    (ht : pyTruthy (dictGet d "is_coding_related" (PyVal.bool true)) = true)
    (hmd : dictLookup d "metrics" = some (PyVal.dict md))
    (hname : name ∈ ["specificity", "clarity", "context", "constraints", "brevity"])
    (hsmd : dictLookup md name = some (PyVal.dict smd)) :
    AnalysisResult.from_dict
        (setKey d "metrics"
          (PyVal.dict (setKey md name (PyVal.dict (setKey smd "score" PyVal.none))))) =
      Except.error floatNoneMsg
    ∧ (∀ n2, n2 ∈ ["specificity", "clarity", "context", "constraints", "brevity"] →
        strHasSub floatNoneMsg n2 = false) :=
  ⟨from_dict_score_none_generic d r md smd name hok ht hmd hname, by decide⟩

/-- C6 counterexample: at a concrete mapping whose specificity score is
null, the decode error message does not contain "specificity". -/
theorem from_dict_score_error_not_named :
    AnalysisResult.from_dict
        (setKey fullDict "metrics" (PyVal.dict
          [("specificity",
            PyVal.dict [("score", PyVal.none), ("explanation", PyVal.str "ok")]),
           ("clarity", metricDictOk), ("context", metricDictOk),
           ("constraints", metricDictOk), ("brevity", metricDictOk)])) =
      Except.error floatNoneMsg
    ∧ strHasSub floatNoneMsg "specificity" = false := ⟨rfl, by decide⟩

/-- C6 witness: the amended statement at a concrete decodable mapping, with
the clarity score made null. -/
theorem from_dict_score_uncoercible_message_witness :
    AnalysisResult.from_dict
        (setKey fullDict "metrics"
          (PyVal.dict (setKey fullMetricsEntries "clarity"
            (PyVal.dict (setKey metricEntriesOk "score" PyVal.none))))) =
      Except.error floatNoneMsg :=
  (from_dict_score_uncoercible_message fullDict fullResult fullMetricsEntries
    metricEntriesOk "clarity" rfl rfl rfl (by decide) rfl).1

end Choptimize
